import Mathlib

/-!
Shallow embedding of the Assessment Interpretation & History subsystem of the
Intub repository (frontend TypeScript), together with theorems settling the
specification claims about it.

Embedded components:
* the concern knowledge base and `getExplanation` (Tooltip.tsx)
* the recommendation composer `getAllRecommendations` /
  `getGeneralRecommendations` / `concernToRecommendations` (Recommendations.tsx)
* the history store hook `useAssessmentHistory` (load effect, `saveHistory`,
  `addAssessment`, `deleteAssessment`, `clearHistory`), `createThumbnail`'s
  canvas geometry, and `formatRelativeTime` (hooks/useAssessmentHistory.ts)
* the thumbnail-fallback branch of `handleAnalyze` (App.tsx)

JavaScript machine integers/floats only occur here as exact values: timestamps
and millisecond differences are embedded as `Int`, image dimensions as `Nat`,
and the two fractional quantities (crop origin halves, JPEG quality) as `Rat`.
-/

/-- The three risk categories of `AnalysisResult.risk_category` (types.ts). -/
inductive RiskCategory where
  | Easy
  | Moderate
  | Difficult
deriving DecidableEq, Repr

/-- Priority levels of a `Recommendation` (Recommendations.tsx lines 6-10). -/
inductive Priority where
  | high
  | medium
  | low
deriving DecidableEq, Repr

/-- `Recommendation` record (Recommendations.tsx lines 6-10). -/
structure Recommendation where
  title : String
  actions : List String
  priority : Priority
deriving DecidableEq, Repr

/-- `AnalysisResult` (types.ts). `score` and `images_analyzed` are JS numbers
holding integers. -/
structure AnalysisResult where
  score : Int
  risk_category : RiskCategory
  concerns : List String
  images_analyzed : Int
deriving DecidableEq, Repr

/-- `HistoryItem` (types.ts). `timestamp` is a millisecond epoch integer. -/
structure HistoryItem where
  id : String
  timestamp : Int
  score : Int
  risk_category : RiskCategory
  concerns : List String
  images_analyzed : Int
  thumbnail : Option String
deriving DecidableEq, Repr

/-- Lower-casing a string character by character, embedding JavaScript
`String.prototype.toLowerCase` (all strings involved are ASCII). -/
def toLowerStr (s : String) : String :=
  ⟨s.data.map Char.toLower⟩

/-- Substring containment on strings, via their character lists: `sub` occurs
contiguously in `s`. This embeds JavaScript `String.prototype.includes`. -/
def strContainsSub (s sub : String) : Bool :=
  (List.range (s.data.length + 1)).any (fun i => sub.data.isPrefixOf (s.data.drop i))

/-- `CONCERN_EXPLANATIONS` (Tooltip.tsx lines 82-99), as an ordered association
list: JS object literals with string keys iterate in insertion order, which
`getExplanation` relies on. Entries are verbatim from the source, in source
order. -/
def CONCERN_EXPLANATIONS : List (String × String) :=
  [ ("jaw mobility", "Limited ability to open mouth or move jaw forward, making laryngoscope insertion difficult"),
    ("restricted jaw", "Limited ability to open mouth or move jaw forward, making laryngoscope insertion difficult"),
    ("mallampati", "Higher Mallampati classification (III-IV) indicates limited visibility of pharyngeal structures, suggesting difficult intubation"),
    ("incisors", "Large or protruding front teeth can obstruct laryngoscope placement and visualization"),
    ("prominent upper", "Large or protruding front teeth can obstruct laryngoscope placement and visualization"),
    ("receding mandible", "Small or set-back lower jaw reduces space for airway manipulation"),
    ("mandible", "Small or set-back lower jaw reduces space for airway manipulation"),
    ("neck extension", "Reduced ability to tilt head back limits optimal positioning for intubation"),
    ("limited neck", "Reduced ability to tilt head back limits optimal positioning for intubation"),
    ("thyromental", "Short distance between chin and neck indicates less space for airway access"),
    ("body habitus", "Physical characteristics suggesting difficult airway access (e.g., obesity, short neck)"),
    ("anatomical", "Unusual structural features that may complicate standard intubation techniques"),
    ("facial trauma", "Injury to face or jaw may obstruct airway access and require alternative techniques"),
    ("airway swelling", "Swollen tissue can rapidly obstruct the airway and complicate visualization"),
    ("cervical spine", "Limited or dangerous neck movement requires special positioning and equipment"),
    ("beard", "Facial hair can prevent proper mask seal for bag-mask ventilation backup") ]

/-- The fallback explanation returned by `getExplanation` when no keyword
matches (Tooltip.tsx line 112). -/
def defaultExplanation : String :=
  "This finding may affect airway management. Consult clinical guidelines for specific recommendations."

/-- The loop body of `getExplanation` (Tooltip.tsx lines 105-109): scan the
entries in order and return the first explanation whose keyword (lower-cased)
occurs in the lower-cased concern; fall through to the default. -/
def getExplanationAux : List (String × String) → String → String
  | [], _ => defaultExplanation
  | (keyword, explanation) :: rest, lowerConcern =>
    if strContainsSub lowerConcern (toLowerStr keyword) then explanation
    else getExplanationAux rest lowerConcern

/-- `getExplanation` (Tooltip.tsx lines 102-113). The source's return type is
`string | null` but every path returns a string, so the embedding returns
`String`. -/
def getExplanation (concern : String) : String :=
  getExplanationAux CONCERN_EXPLANATIONS (toLowerStr concern)

/-- The keyword whose entry the `getExplanation` loop returns on: the first
entry of `CONCERN_EXPLANATIONS`, in table order, whose lower-cased keyword
occurs in the lower-cased concern. -/
def firstMatchedKeyword (concern : String) : Option String :=
  (CONCERN_EXPLANATIONS.find?
    (fun p => strContainsSub (toLowerStr concern) (toLowerStr p.1))).map Prod.fst

/-- `concernToRecommendations` (Recommendations.tsx lines 12-103), as an
association list keyed by the canonical concern labels, in source order. -/
def concernToRecommendations : List (String × Recommendation) :=
  [ ("Limited mouth opening",
     { title := "Prepare for Limited Oral Access",
       actions :=
        [ "Consider using a video laryngoscope with a narrow blade profile",
          "Have smaller endotracheal tubes readily available",
          "Prepare fiberoptic intubation equipment as backup",
          "Position patient optimally to maximize mouth opening" ],
       priority := .high }),
    ("Restricted neck mobility",
     { title := "Address Neck Movement Limitations",
       actions :=
        [ "Avoid excessive head extension maneuvers",
          "Use video laryngoscopy to reduce need for neck manipulation",
          "Consider awake fiberoptic intubation if severely restricted",
          "Have rigid stylet available for tube guidance" ],
       priority := .high }),
    ("High Mallampati score",
     { title := "Manage Limited Pharyngeal Visualization",
       actions :=
        [ "Use video laryngoscopy as first-line technique",
          "Ensure adequate patient positioning (sniffing position)",
          "Have experienced personnel available",
          "Prepare supraglottic airway device as backup" ],
       priority := .medium }),
    ("Short thyromental distance",
     { title := "Anticipate Difficult Laryngeal Exposure",
       actions :=
        [ "Use video laryngoscope with enhanced visualization",
          "Consider ramped positioning for better alignment",
          "Have bougie or stylet readily available",
          "Prepare for potential need of supraglottic device" ],
       priority := .medium }),
    ("Prominent teeth",
     { title := "Protect Dentition and Ensure Clear View",
       actions :=
        [ "Use tooth guards or dampened gauze for protection",
          "Exercise extreme caution during laryngoscope insertion",
          "Consider video laryngoscopy to reduce force needed",
          "Document dental condition before procedure" ],
       priority := .medium }),
    ("Receding mandible",
     { title := "Overcome Anatomical Airway Obstruction",
       actions :=
        [ "Use video laryngoscope for improved view",
          "Optimize head and neck positioning",
          "Have bougie or introducer ready for tube guidance",
          "Prepare fiberoptic equipment as alternative approach" ],
       priority := .high }),
    ("Facial trauma",
     { title := "Manage Traumatic Airway Challenges",
       actions :=
        [ "Assess for possible cervical spine injury - maintain stabilization",
          "Anticipate blood and secretions - have suction ready",
          "Consider awake intubation if airway anatomy distorted",
          "Have surgical airway equipment immediately available" ],
       priority := .high }),
    ("Obesity",
     { title := "Address Obesity-Related Airway Challenges",
       actions :=
        [ "Use ramped positioning to align airway axes",
          "Ensure adequate preoxygenation (reduced oxygen reserve)",
          "Have video laryngoscope and shorter handle available",
          "Prepare for rapid oxygen desaturation - work efficiently" ],
       priority := .medium }),
    ("Beard",
     { title := "Optimize Mask Seal and Airway Access",
       actions :=
        [ "Apply water-soluble lubricant to improve mask seal",
          "Use two-person bag-mask ventilation technique if needed",
          "Have supraglottic airway device available as backup",
          "Consider trimming beard if patient condition permits" ],
       priority := .low }) ]

/-- Exact-key lookup in `concernToRecommendations`, embedding the JS property
access `concernToRecommendations[concern]` (Recommendations.tsx line 150). -/
def lookupConcern (concern : String) : Option Recommendation :=
  (concernToRecommendations.find? (fun p => p.1 == concern)).map Prod.snd

/-- `getGeneralRecommendations` (Recommendations.tsx lines 105-140): the fixed
general template selected solely by the risk category. -/
def getGeneralRecommendations (riskCategory : RiskCategory) : Recommendation :=
  if riskCategory = .Difficult then
    { title := "High-Risk Airway Protocol",
      actions :=
        [ "Summon most experienced airway provider available",
          "Assemble complete difficult airway cart",
          "Prepare surgical airway equipment and personnel",
          "Consider awake fiberoptic intubation",
          "Have team brief on backup plans before starting" ],
      priority := .high }
  else if riskCategory = .Moderate then
    { title := "Enhanced Airway Preparation",
      actions :=
        [ "Have experienced provider present or immediately available",
          "Prepare video laryngoscope and adjunct equipment",
          "Ensure supraglottic airway device at bedside",
          "Discuss backup plan with team before induction" ],
      priority := .medium }
  else
    { title := "Standard Airway Management",
      actions :=
        [ "Follow standard intubation protocols",
          "Ensure backup equipment is readily available",
          "Maintain vigilance for unexpected difficulties" ],
      priority := .low }

/-- `getAllRecommendations` (Recommendations.tsx lines 142-157): start from the
general recommendation, then push the canonical-label match of each concern in
input order, skipping concerns without a match. The JS `push` loop is embedded
as a left fold appending to the accumulator. -/
def getAllRecommendations (concerns : List String)
    (riskCategory : RiskCategory) : List Recommendation :=
  concerns.foldl
    (fun acc concern =>
      match lookupConcern concern with
      | some r => acc ++ [r]
      | none => acc)
    [getGeneralRecommendations riskCategory]

/-! ## History store (hooks/useAssessmentHistory.ts) -/

/-- `MAX_HISTORY_ITEMS` (useAssessmentHistory.ts line 5). -/
def MAX_HISTORY_ITEMS : Nat := 10

/-- `saveHistory` (useAssessmentHistory.ts lines 24-31), viewed through its
effect on the in-memory `history` state. `localStorage.setItem` runs before
`setHistory(items)` inside the `try`: when the storage write throws
(`writeFails = true`) the error is caught and logged and the in-memory state
is left at `current`; otherwise the state becomes `items`. -/
def saveHistory (writeFails : Bool) (current items : List HistoryItem) :
    List HistoryItem :=
  if writeFails then current else items

/-- The `HistoryItem` literal built by `addAssessment` (useAssessmentHistory.ts
lines 36-44). The id string `Date.now()-random` and the timestamp are
environment inputs, passed in explicitly. -/
def mkHistoryItem (id : String) (ts : Int) (result : AnalysisResult)
    (thumbnail : Option String) : HistoryItem :=
  { id := id, timestamp := ts, score := result.score,
    risk_category := result.risk_category, concerns := result.concerns,
    images_analyzed := result.images_analyzed, thumbnail := thumbnail }

/-- `addAssessment` (useAssessmentHistory.ts lines 34-51): build the new item,
prepend it, truncate to `MAX_HISTORY_ITEMS`, run `saveHistory`, and return the
new item's id together with the resulting in-memory history. -/
def addAssessment (writeFails : Bool) (history : List HistoryItem)
    (result : AnalysisResult) (id : String) (ts : Int)
    (thumbnail : Option String) : List HistoryItem × String :=
  let newItem := mkHistoryItem id ts result thumbnail
  let updatedHistory := (newItem :: history).take MAX_HISTORY_ITEMS
  (saveHistory writeFails history updatedHistory, newItem.id)

/-- `getAssessment` (useAssessmentHistory.ts lines 54-59). -/
def getAssessment (history : List HistoryItem) (id : String) :
    Option HistoryItem :=
  history.find? (fun item => item.id == id)

/-- `deleteAssessment` (useAssessmentHistory.ts lines 62-68). -/
def deleteAssessment (writeFails : Bool) (history : List HistoryItem)
    (id : String) : List HistoryItem :=
  saveHistory writeFails history (history.filter (fun item => item.id != id))

/-- `clearHistory` (useAssessmentHistory.ts lines 71-73). -/
def clearHistory (writeFails : Bool) (history : List HistoryItem) :
    List HistoryItem :=
  saveHistory writeFails history []

/-- The load effect (useAssessmentHistory.ts lines 11-21), viewed through its
result on the `history` state, which starts as `[]`. The stored string and
`JSON.parse` are the environment: `parsed` is `some items` when the key is
present and parses to a history array, `none` when the key is absent or
`JSON.parse` throws (the catch only logs). The source applies no truncation or
validation to the parsed value. -/
def loadEffect (parsed : Option (List HistoryItem)) : List HistoryItem :=
  match parsed with
  | some items => items
  | none => []

/-- One history-store mutation, tagged with whether the storage write fails. -/
inductive HistoryOp where
  | addOp (result : AnalysisResult) (id : String) (ts : Int)
      (thumbnail : Option String) (writeFails : Bool)
  | deleteOp (id : String) (writeFails : Bool)
  | clearOp (writeFails : Bool)

/-- Apply one history-store mutation to the in-memory history. -/
def applyHistoryOp (history : List HistoryItem) : HistoryOp → List HistoryItem
  | .addOp result id ts thumbnail writeFails =>
    (addAssessment writeFails history result id ts thumbnail).1
  | .deleteOp id writeFails => deleteAssessment writeFails history id
  | .clearOp writeFails => clearHistory writeFails history

/-! ## Thumbnail deriver (useAssessmentHistory.ts lines 85-117) -/

/-- The canvas parameters `createThumbnail` computes for a decoded source image
of dimensions `w × h` (useAssessmentHistory.ts lines 98-109): the canvas size,
the `drawImage(img, sx, sy, sWidth, sHeight, dx, dy, dWidth, dHeight)`
arguments, and the `toDataURL` mime type and quality. The JS divisions
`(width - minDim) / 2` are exact number divisions, embedded in `Rat`. -/
structure ThumbnailRender where
  canvasWidth : Nat
  canvasHeight : Nat
  sx : Rat
  sy : Rat
  sWidth : Nat
  sHeight : Nat
  dx : Nat
  dy : Nat
  dWidth : Nat
  dHeight : Nat
  mimeType : String
  quality : Rat
deriving DecidableEq, Repr

/-- The deterministic geometry of `createThumbnail` (useAssessmentHistory.ts
lines 85-117) once the source image has decoded with dimensions `w × h`:
`size = 60`, `minDim = min(width, height)`, centered crop origin, fixed
`60 × 60` destination, JPEG at quality 0.6. -/
def createThumbnailRender (w h : Nat) : ThumbnailRender :=
  let size : Nat := 60
  let minDim : Nat := Nat.min w h
  { canvasWidth := size, canvasHeight := size,
    sx := ((w : Rat) - (minDim : Rat)) / 2,
    sy := ((h : Rat) - (minDim : Rat)) / 2,
    sWidth := minDim, sHeight := minDim,
    dx := 0, dy := 0, dWidth := size, dHeight := size,
    mimeType := "image/jpeg", quality := 6 / 10 }

/-! ## Assessment-save flow (App.tsx lines 50-58) -/

/-- The history-save step of `handleAnalyze` (App.tsx lines 50-58): await
`createThumbnail(images[0].file)`; on success call `addAssessment(data,
thumbnail)`, on rejection (any error) catch it and call `addAssessment(data)`
with no thumbnail. The thumbnail promise's outcome is the `Except` argument. -/
def handleAnalyzeSave (writeFails : Bool) (history : List HistoryItem)
    (data : AnalysisResult) (id : String) (ts : Int)
    (thumbResult : Except String String) : List HistoryItem × String :=
  match thumbResult with
  | .ok thumbnail => addAssessment writeFails history data id ts (some thumbnail)
  | .error _ => addAssessment writeFails history data id ts none

/-! ## Relative-time formatter (useAssessmentHistory.ts lines 120-148) -/

/-- Modelled from the spec: the else branch of `formatRelativeTime` calls the
platform function `new Date(timestamp).toLocaleDateString("en-US", {month:
"short", day: "numeric"})`, which is not part of this repository; the spec
describes it as "absolute short date (Mon D format)". It is embedded as an
abstract rendering determined by the timestamp alone. -/
def toLocaleDateShort (timestamp : Int) : String :=
  "toLocaleDateString(" ++ toString timestamp ++ ")"

/-- `formatRelativeTime` (useAssessmentHistory.ts lines 120-148). The source
reads `Date.now()`; it is passed here as the explicit `now` argument. JS
`Math.floor(diff / k)` agrees with `Int` division on every branch that
evaluates it, since those branches have `diff ≥ k > 0`. -/
def formatRelativeTime (timestamp now : Int) : String :=
  let diff := now - timestamp
  let minute : Int := 60 * 1000
  let hour : Int := 60 * minute
  let day : Int := 24 * hour
  let week : Int := 7 * day
  if diff < minute then
    "Just now"
  else if diff < hour then
    let mins := diff / minute
    toString mins ++ " minute" ++ (if mins > 1 then "s" else "") ++ " ago"
  else if diff < day then
    let hours := diff / hour
    toString hours ++ " hour" ++ (if hours > 1 then "s" else "") ++ " ago"
  else if diff < 2 * day then
    "Yesterday"
  else if diff < week then
    let days := diff / day
    toString days ++ " days ago"
  else
    toLocaleDateShort timestamp

/-! ## Auxiliary values and argument bundles used in the theorems -/

/-- Argument bundle for one `addAssessment` call with a working storage
backend: the analysis result plus the environment-chosen id and timestamp. -/
structure AddArgs where
  result : AnalysisResult
  id : String
  ts : Int
  thumbnail : Option String

/-- One `addAssessment` call (working storage), keeping only the resulting
in-memory history. -/
def runAdd (history : List HistoryItem) (a : AddArgs) : List HistoryItem :=
  (addAssessment false history a.result a.id a.ts a.thumbnail).1

/-- The `HistoryItem` that the `addAssessment` call for `a` constructs. -/
def itemOf (a : AddArgs) : HistoryItem :=
  mkHistoryItem a.id a.ts a.result a.thumbnail

/-- The mock analysis result from the spec's end-to-end scenario. -/
def sampleResult : AnalysisResult :=
  { score := 68, risk_category := .Difficult,
    concerns := ["Limited neck extension observed"], images_analyzed := 3 }

/-- A concrete history item, used to build concrete persisted collections. -/
def sampleItem : HistoryItem := mkHistoryItem "seed" 0 sampleResult none

/-! ## Helper lemmas -/

/-- The push-loop of `getAllRecommendations`, as a fold, appends exactly the
canonical-label matches of the concerns, in input order. -/
theorem foldl_pushMatched (l : List String) (acc : List Recommendation) :
    l.foldl
      (fun a concern =>
        match lookupConcern concern with
        | some r => a ++ [r]
        | none => a)
      acc = acc ++ l.filterMap lookupConcern := by
  induction l generalizing acc with
  | nil => simp
  | cons c cs ih =>
    simp only [List.foldl_cons, List.filterMap_cons]
    cases h : lookupConcern c with
    | none => simp [h, ih]
    | some r => simp [h, ih]

/-- The `getExplanation` scan returns the value of the first matching entry,
and the default when none matches. -/
theorem getExplanationAux_eq_find (l : List (String × String)) (lc : String) :
    getExplanationAux l lc =
      match l.find? (fun p => strContainsSub lc (toLowerStr p.1)) with
      | some p => p.2
      | none => defaultExplanation := by
  induction l with
  | nil => rfl
  | cons p rest ih =>
    obtain ⟨keyword, explanation⟩ := p
    by_cases h : strContainsSub lc (toLowerStr keyword) = true
    · simp [getExplanationAux, h, List.find?_cons_of_pos]
    · rw [Bool.not_eq_true] at h
      simp [getExplanationAux, h, List.find?_cons_of_neg, ih]

/-- A string whose length is not 9 is not "Yesterday". -/
theorem ne_yesterday_of_length {s : String} (h : s.length ≠ 9) :
    s ≠ "Yesterday" := by
  intro he
  exact h (by rw [he]; rfl)

/-- Minute-band outputs are never "Yesterday": they are at least 11 characters
long. -/
theorem minute_string_ne_yesterday (s t : String) :
    s ++ " minute" ++ t ++ " ago" ≠ "Yesterday" := by
  apply ne_yesterday_of_length
  simp only [String.length_append]
  have h1 : (" minute" : String).length = 7 := rfl
  have h2 : (" ago" : String).length = 4 := rfl
  omega

/-- Plural hour-band outputs are never "Yesterday": they are at least 10
characters long. -/
theorem hour_plural_ne_yesterday (s : String) :
    s ++ " hour" ++ "s" ++ " ago" ≠ "Yesterday" := by
  apply ne_yesterday_of_length
  simp only [String.length_append]
  have h1 : (" hour" : String).length = 5 := rfl
  have h2 : ("s" : String).length = 1 := rfl
  have h3 : (" ago" : String).length = 4 := rfl
  omega

/-- The absolute-date branch output is never "Yesterday": it is at least 20
characters long. -/
theorem toLocaleDateShort_ne_yesterday (ts : Int) :
    toLocaleDateShort ts ≠ "Yesterday" := by
  apply ne_yesterday_of_length
  simp only [toLocaleDateShort, String.length_append]
  have h1 : ("toLocaleDateString(" : String).length = 19 := rfl
  have h2 : (")" : String).length = 1 := rfl
  omega

/-- `formatRelativeTime` with its band constants multiplied out. -/
theorem formatRelativeTime_eq (ts now : Int) :
    formatRelativeTime ts now =
      if now - ts < 60000 then "Just now"
      else if now - ts < 3600000 then
        toString ((now - ts) / 60000) ++ " minute" ++
          (if (now - ts) / 60000 > 1 then "s" else "") ++ " ago"
      else if now - ts < 86400000 then
        toString ((now - ts) / 3600000) ++ " hour" ++
          (if (now - ts) / 3600000 > 1 then "s" else "") ++ " ago"
      else if now - ts < 172800000 then "Yesterday"
      else if now - ts < 604800000 then
        toString ((now - ts) / 86400000) ++ " days ago"
      else toLocaleDateShort ts := rfl

/-! ## Claim theorems -/

/-- C5: for every input string `c`, `getExplanation c` is total (it returns a
`String`) and returns the explanation of the first keyword, in
`CONCERN_EXPLANATIONS` iteration order, that occurs case-insensitively as a
substring of `c`; when no keyword occurs it returns the fixed generic fallback
`defaultExplanation`. -/
theorem explain_first_keyword_or_fallback (c : String) :
    getExplanation c =
      match CONCERN_EXPLANATIONS.find?
          (fun p => strContainsSub (toLowerStr c) (toLowerStr p.1)) with
      | some p => p.2
      | none => defaultExplanation :=
  getExplanationAux_eq_find CONCERN_EXPLANATIONS (toLowerStr c)

/-- C4: for every concern sequence `cs` and risk category `r`,
`getAllRecommendations cs r` is the general recommendation of `r` (priority
high/medium/low with its fixed title for Difficult/Moderate/Easy) followed by
one concern-specific entry per occurrence of each concern matching a canonical
label, in input order, with unmatched concerns skipped and duplicates kept;
`getAllRecommendations [] r` is exactly the one general recommendation. -/
theorem compose_general_then_specific (cs : List String) (r : RiskCategory) :
    getAllRecommendations cs r
        = getGeneralRecommendations r :: cs.filterMap lookupConcern
      ∧ getAllRecommendations [] r = [getGeneralRecommendations r]
      ∧ (getGeneralRecommendations .Difficult).priority = .high
      ∧ (getGeneralRecommendations .Moderate).priority = .medium
      ∧ (getGeneralRecommendations .Easy).priority = .low
      ∧ (getGeneralRecommendations .Difficult).title = "High-Risk Airway Protocol"
      ∧ (getGeneralRecommendations .Moderate).title = "Enhanced Airway Preparation"
      ∧ (getGeneralRecommendations .Easy).title = "Standard Airway Management" := by
  refine ⟨?_, rfl, rfl, rfl, rfl, rfl, rfl, rfl⟩
  simpa using foldl_pushMatched cs [getGeneralRecommendations r]

/-- C3 counterexample: on the concern "Limited neck extension observed", the
`getExplanation` scan matches the keyword "neck extension" (table index 7),
which precedes "limited neck" (table index 8), so the claim's asserted matched
keyword "limited neck" is not the one the code matches. -/
theorem neck_keyword_counterexample :
    firstMatchedKeyword "Limited neck extension observed" ≠ some "limited neck"
      ∧ firstMatchedKeyword "Limited neck extension observed"
        = some "neck extension" :=
  ⟨by decide, by decide⟩

/-- C3 (amended): for the scenario result `{score: 68, risk_category:
Difficult, concerns: ["Limited neck extension observed"], images_analyzed: 3}`,
the composer returns exactly the one Difficult-category general recommendation
(the concern is not a canonical label), and `getExplanation` on the concern
matches the keyword "neck extension" (which precedes "limited neck" in the
table and carries the same text) and returns the neck-extension explanation. -/
theorem difficult_neck_scenario :
    getAllRecommendations sampleResult.concerns sampleResult.risk_category
        = [getGeneralRecommendations .Difficult]
      ∧ firstMatchedKeyword "Limited neck extension observed"
        = some "neck extension"
      ∧ getExplanation "Limited neck extension observed"
        = "Reduced ability to tilt head back limits optimal positioning for intubation" :=
  ⟨by decide, by decide, by decide⟩

/-- C6: starting from the empty history, eleven `addAssessment` calls in
sequence (working storage) leave exactly ten items, with the eleventh-added
item at index 0 and the first-added item evicted (the result is exactly the
eleventh down to the second item); no error is surfaced (the fold is total). -/
theorem eleven_adds_evict_oldest
    (a₁ a₂ a₃ a₄ a₅ a₆ a₇ a₈ a₉ a₁₀ a₁₁ : AddArgs) :
    ([a₁, a₂, a₃, a₄, a₅, a₆, a₇, a₈, a₉, a₁₀, a₁₁].foldl runAdd []).length = 10
      ∧ ([a₁, a₂, a₃, a₄, a₅, a₆, a₇, a₈, a₉, a₁₀, a₁₁].foldl runAdd []).head?
        = some (itemOf a₁₁)
      ∧ [a₁, a₂, a₃, a₄, a₅, a₆, a₇, a₈, a₉, a₁₀, a₁₁].foldl runAdd []
        = [itemOf a₁₁, itemOf a₁₀, itemOf a₉, itemOf a₈, itemOf a₇, itemOf a₆,
           itemOf a₅, itemOf a₄, itemOf a₃, itemOf a₂] :=
  ⟨rfl, rfl, rfl⟩

/-- C9: in the assessment-save flow, when thumbnail derivation rejects with any
error, the assessment is still added to the history store with no thumbnail:
the new item (thumbnail `none`) is prepended and the id returned, exactly as a
thumbnail-less `addAssessment`; the save is never aborted and no error is
propagated (the function is total). -/
theorem thumbnail_failure_nonfatal (history : List HistoryItem)
    (data : AnalysisResult) (id : String) (ts : Int) (e : String) :
    (handleAnalyzeSave false history data id ts (.error e)).1
        = (mkHistoryItem id ts data none :: history).take MAX_HISTORY_ITEMS
      ∧ (handleAnalyzeSave false history data id ts (.error e)).1.head?
        = some (mkHistoryItem id ts data none)
      ∧ (handleAnalyzeSave false history data id ts (.error e)).2 = id :=
  ⟨rfl, rfl, rfl⟩

/-- C2 counterexample: with a failing storage write, `addAssessment` on the
empty history leaves the in-memory collection empty instead of updating it to
the claimed new value (the new item prepended and truncated to 10). -/
theorem addAssessment_write_failure_counterexample :
    (addAssessment true [] sampleResult "id-1" 1000 none).1 = []
      ∧ (addAssessment true [] sampleResult "id-1" 1000 none).1
        ≠ (mkHistoryItem "id-1" 1000 sampleResult none
            :: ([] : List HistoryItem)).take MAX_HISTORY_ITEMS :=
  ⟨rfl, by decide⟩

/-- C2 (amended): `addAssessment` never fails on a valid result and always
returns the new id; when the storage write succeeds the in-memory collection
becomes the new value (item prepended, truncated to 10), but when the storage
write throws the error is caught and logged and the in-memory collection is
left unchanged (because `setHistory` runs after `setItem` inside the `try`). -/
theorem addAssessment_error_handling (writeFails : Bool)
    (history : List HistoryItem) (result : AnalysisResult) (id : String)
    (ts : Int) (thumbnail : Option String) :
    (addAssessment writeFails history result id ts thumbnail).2 = id
      ∧ (addAssessment false history result id ts thumbnail).1
        = (mkHistoryItem id ts result thumbnail :: history).take MAX_HISTORY_ITEMS
      ∧ (addAssessment true history result id ts thumbnail).1 = history :=
  ⟨rfl, rfl, rfl⟩

/-- Every single history-store mutation preserves the capacity bound 10. -/
theorem applyHistoryOp_length_le (history : List HistoryItem) (op : HistoryOp)
    (h : history.length ≤ 10) : (applyHistoryOp history op).length ≤ 10 := by
  cases op with
  | addOp result id ts thumbnail writeFails =>
    cases writeFails with
    | false =>
      simp only [applyHistoryOp, addAssessment, saveHistory, MAX_HISTORY_ITEMS,
        Bool.false_eq_true, if_false]
      exact List.length_take_le 10 (mkHistoryItem id ts result thumbnail :: history)
    | true => simpa [applyHistoryOp, addAssessment, saveHistory] using h
  | deleteOp id writeFails =>
    cases writeFails with
    | false =>
      refine le_trans ?_ h
      simpa [applyHistoryOp, deleteAssessment, saveHistory]
        using List.length_filter_le (fun item => item.id != id) history
    | true => simpa [applyHistoryOp, deleteAssessment, saveHistory] using h
  | clearOp writeFails =>
    cases writeFails with
    | false => simp [applyHistoryOp, clearHistory, saveHistory]
    | true => simpa [applyHistoryOp, clearHistory, saveHistory] using h

/-- C1 counterexample: the load effect applies no truncation, so a persisted
string that parses to eleven items yields a history of length 11 > 10. -/
theorem load_overfull_counterexample :
    10 < (loadEffect (some (List.replicate 11 sampleItem))).length := by
  decide

/-- C1 (amended): every state produced from a collection within the capacity
bound (in particular the empty store, which is also what `load()` yields on a
missing key or deserialization failure) by any sequence of add, delete and
clear operations — with or without storage-write failures — has length at most
MAX = 10; `load()` itself, however, adopts whatever the persisted string
deserializes to without truncation, so the bound holds for loaded states only
when the persisted collection itself has at most 10 items. -/
theorem history_capacity_invariant (ops : List HistoryOp)
    (init : List HistoryItem) (h : init.length ≤ 10) :
    (ops.foldl applyHistoryOp init).length ≤ 10 ∧ loadEffect none = [] := by
  refine ⟨?_, rfl⟩
  induction ops generalizing init with
  | nil => simpa using h
  | cons op rest ih =>
    simpa only [List.foldl_cons]
      using ih (applyHistoryOp init op) (applyHistoryOp_length_le init op h)

/-- Witness for C1: the invariant applied to one clear operation on the empty
store. -/
theorem history_capacity_invariant_check :
    ([] : List HistoryItem).length ≤ 10
      ∧ (([HistoryOp.clearOp false].foldl applyHistoryOp
            ([] : List HistoryItem)).length ≤ 10
          ∧ loadEffect none = []) :=
  ⟨by decide, history_capacity_invariant [HistoryOp.clearOp false] [] (by decide)⟩

/-- C8: for every decoded source of width `w` and height `h`, the thumbnail
geometry crops the square of side `min w h` at origin `((w-side)/2, (h-side)/2)`
(exact JS division, in `Rat`), draws it onto a fixed 60×60 canvas, and encodes
as JPEG at quality 0.6; a 4000×3000 source is cropped to the centered
3000×3000 region at origin (500, 0). -/
theorem thumbnail_geometry (w h : Nat) :
    (createThumbnailRender w h).sWidth = Nat.min w h
      ∧ (createThumbnailRender w h).sHeight = Nat.min w h
      ∧ (createThumbnailRender w h).sx = ((w : Rat) - (Nat.min w h : Rat)) / 2
      ∧ (createThumbnailRender w h).sy = ((h : Rat) - (Nat.min w h : Rat)) / 2
      ∧ (createThumbnailRender w h).canvasWidth = 60
      ∧ (createThumbnailRender w h).canvasHeight = 60
      ∧ (createThumbnailRender w h).dWidth = 60
      ∧ (createThumbnailRender w h).dHeight = 60
      ∧ (createThumbnailRender w h).mimeType = "image/jpeg"
      ∧ (createThumbnailRender w h).quality = 6 / 10
      ∧ createThumbnailRender 4000 3000 =
          { canvasWidth := 60, canvasHeight := 60, sx := 500, sy := 0,
            sWidth := 3000, sHeight := 3000, dx := 0, dy := 0, dWidth := 60,
            dHeight := 60, mimeType := "image/jpeg", quality := 6 / 10 } := by
  refine ⟨rfl, rfl, rfl, rfl, rfl, rfl, rfl, rfl, rfl, rfl, ?_⟩
  simp only [createThumbnailRender, ThumbnailRender.mk.injEq]
  norm_num

/-- C7: for timestamps not after `now` (`diff = now - ts ≥ 0`), the formatter
applies its bands first-match-first with closed lower bounds: 59_999 ms is
"Just now", 60_000 ms is "1 minute ago", 3_599_999 ms is "59 minutes ago",
3_600_000 ms is "1 hour ago"; the output is "Yesterday" exactly when
86_400_000 ≤ diff < 172_800_000; it is "N days ago" with N = ⌊diff/86_400_000⌋
when 172_800_000 ≤ diff < 604_800_000; and it is the absolute short date of
the timestamp otherwise. -/
theorem relative_time_bands (ts now : Int) (_h0 : 0 ≤ now - ts) :
    (now - ts = 59999 → formatRelativeTime ts now = "Just now")
      ∧ (now - ts = 60000 → formatRelativeTime ts now = "1 minute ago")
      ∧ (now - ts = 3599999 → formatRelativeTime ts now = "59 minutes ago")
      ∧ (now - ts = 3600000 → formatRelativeTime ts now = "1 hour ago")
      ∧ (formatRelativeTime ts now = "Yesterday"
          ↔ 86400000 ≤ now - ts ∧ now - ts < 172800000)
      ∧ (172800000 ≤ now - ts → now - ts < 604800000 →
          formatRelativeTime ts now
            = toString ((now - ts) / 86400000) ++ " days ago")
      ∧ (604800000 ≤ now - ts → formatRelativeTime ts now = toLocaleDateShort ts) := by
  rw [formatRelativeTime_eq]
  refine ⟨?_, ?_, ?_, ?_, ?_, ?_, ?_⟩
  · intro h; rw [h]; rfl
  · intro h; rw [h]; rfl
  · intro h; rw [h]; rfl
  · intro h; rw [h]; rfl
  · constructor
    · intro hh
      split_ifs at hh with h1 h2 hm h3 hhp h4 h5
      · exact absurd hh (by decide)
      · exact absurd hh (minute_string_ne_yesterday _ _)
      · exact absurd hh (minute_string_ne_yesterday _ _)
      · exact absurd hh (hour_plural_ne_yesterday _)
      · have heq : (now - ts) / 3600000 = 1 := by omega
        rw [heq] at hh
        exact absurd hh (by decide)
      · exact ⟨by omega, by omega⟩
      · have hd : (now - ts) / 86400000 = 2 ∨ (now - ts) / 86400000 = 3
            ∨ (now - ts) / 86400000 = 4 ∨ (now - ts) / 86400000 = 5
            ∨ (now - ts) / 86400000 = 6 := by omega
        rcases hd with hd | hd | hd | hd | hd <;> rw [hd] at hh <;>
          exact absurd hh (by decide)
      · exact absurd hh (toLocaleDateShort_ne_yesterday ts)
    · rintro ⟨hb1, hb2⟩
      rw [if_neg (by omega : ¬(now - ts < 60000)),
        if_neg (by omega : ¬(now - ts < 3600000)),
        if_neg (by omega : ¬(now - ts < 86400000)), if_pos hb2]
  · intro hA hB
    rw [if_neg (by omega : ¬(now - ts < 60000)),
      if_neg (by omega : ¬(now - ts < 3600000)),
      if_neg (by omega : ¬(now - ts < 86400000)),
      if_neg (by omega : ¬(now - ts < 172800000)), if_pos hB]
  · intro hA
    rw [if_neg (by omega : ¬(now - ts < 60000)),
      if_neg (by omega : ¬(now - ts < 3600000)),
      if_neg (by omega : ¬(now - ts < 86400000)),
      if_neg (by omega : ¬(now - ts < 172800000)),
      if_neg (by omega : ¬(now - ts < 604800000))]

/-- Witness for C7: the band theorem applied at timestamp 0 and now 59_999. -/
theorem relative_time_bands_check :
    (0 : Int) ≤ 59999 - 0 ∧ formatRelativeTime 0 59999 = "Just now" :=
  ⟨by decide, (relative_time_bands 0 59999 (by decide)).1 (by decide)⟩

/-- C10: for every timestamp strictly in the future of `now` (negative diff),
the formatter returns "Just now": it is total over all integer timestamps and
produces neither a negative count nor an error. -/
theorem future_timestamp_just_now (ts now : Int) (h : now < ts) :
    formatRelativeTime ts now = "Just now" := by
  rw [formatRelativeTime_eq, if_pos (by omega : now - ts < 60000)]

/-- Witness for C10: a timestamp one millisecond in the future of now 0. -/
theorem future_timestamp_just_now_check :
    (0 : Int) < 1 ∧ formatRelativeTime 1 0 = "Just now" :=
  ⟨by decide, future_timestamp_just_now 1 0 (by decide)⟩
